import Mathlib

/-!
Verification of the StoryArchitectAI backend (src/backend/main.py and
src/backend/prompts.py) against its natural-language specification.

The Python code is shallowly embedded:
* Python `str` values are Lean `String`s; the Python string operations used by
  the code (`str.strip`, `str.startswith`, slicing `s[7:-3]`) are defined below
  on the character list underlying a `String`.
* `json.loads` is part of the Python standard library (an external collaborator
  of this repository, like the vendor SDKs); it is modelled as an explicit
  parameter `jsonLoads : String -> Except String Json` of the endpoints that
  use it, where `Json` is an abstract syntax tree of JSON values.
* `datetime` values are modelled as integer timestamps (`Int`); pydantic
  serialises and re-parses datetimes faithfully, modelled here as a numeric
  JSON field.  Only the ordering of timestamps matters to the spec.
* The vendor SDK call of each request is modelled by a `VendorResult`
  parameter: either the text the vendor returned or the message of the
  exception the SDK raised.
* The flat-file project store (directory `../data`) is a list of
  (filename, parsed file content) pairs.  Directory iteration order
  (`Path.glob`) is unspecified by the OS, so the model keeps files in list
  order and an overwrite moves the file to the end of the list.
* `fastapi.HTTPException` is a Python `Exception`; the blanket
  `except Exception` handlers of `create_project` and `analyze_chapter`
  therefore catch it, which the embedding reproduces faithfully.
-/

namespace StoryArchitect

/-- Abstract syntax of JSON values, the result type of `json.loads`. -/
inductive Json where
  | null : Json
  | bool (b : Bool) : Json
  | num (n : Int) : Json
  | str (s : String) : Json
  | arr (elems : List Json) : Json
  | obj (fields : List (String × Json)) : Json

/-- The `Provider` enum of main.py: a closed enumeration of seven providers,
only the first three of which have an implemented code path. -/
inductive Provider where
  | google
  | openai
  | anthropic
  | zhipu
  | moonshot
  | baidu
  | alibaba
deriving DecidableEq

/-- The string value of each `Provider` enum member (it is a `str`-mixin enum). -/
def providerValue : Provider → String
  | .google => "google"
  | .openai => "openai"
  | .anthropic => "anthropic"
  | .zhipu => "zhipu"
  | .moonshot => "moonshot"
  | .baidu => "baidu"
  | .alibaba => "alibaba"

/-- Rendering of a `Provider` member inside an f-string
(`f"... provider '\x7bp\x7d' ..."`).  The exact text is Python-version
dependent (the member value on 3.10 and earlier, `Provider.NAME` on 3.11+);
the model uses the member value.  No theorem below depends on this choice. -/
def providerFormat (p : Provider) : String := providerValue p

/-- Recover a `Provider` from its serialised string value (pydantic enum
validation when a stored project is re-read). -/
def providerOfValue (s : String) : Option Provider :=
  if s = "google" then some .google
  else if s = "openai" then some .openai
  else if s = "anthropic" then some .anthropic
  else if s = "zhipu" then some .zhipu
  else if s = "moonshot" then some .moonshot
  else if s = "baidu" then some .baidu
  else if s = "alibaba" then some .alibaba
  else none

/-- `ProjectConcept` pydantic model: four free-text fields. -/
structure ProjectConcept where
  genre : String
  theme : String
  core_idea : String
  style : String
deriving DecidableEq

/-- `StoryConcept` of prompts.py.  `create_project` builds it from the
request concept by an identity field mapping, so it is the same record. -/
abbrev StoryConcept := ProjectConcept

/-- Request body of `POST /api/projects` (`ProjectCreate`). -/
structure ProjectCreate where
  title : String
  concept : ProjectConcept
  provider : Provider
  api_key : String

/-- The persisted `Project` pydantic model.  `outline : dict` is a JSON
object, kept as its field list. -/
structure Project where
  id : String
  title : String
  created_at : Int
  provider : Provider
  concept : ProjectConcept
  outline : List (String × Json)

/-- Projection of `Project` used by the listing endpoint. -/
structure ProjectMetadata where
  id : String
  title : String
  created_at : Int
deriving DecidableEq

/-- Request body of `POST /api/analyze-chapter`. -/
structure ChapterAnalysisRequest where
  chapter_text : String
  provider : Provider
  api_key : String

/-- Response model of `POST /api/analyze-chapter`. -/
structure ChapterAnalysisResponse where
  summary : String
  characters : List String
deriving DecidableEq

/-- An HTTP error (`fastapi.HTTPException`): status code plus detail text. -/
structure HTTPError where
  status : Nat
  detail : String
deriving DecidableEq

/-! ### Python string primitives used by main.py -/

/-- Python `str.strip()` on the underlying character list: drop whitespace
from the front, then from the back. -/
def pyStripList (l : List Char) : List Char :=
  ((l.dropWhile Char.isWhitespace).reverse.dropWhile Char.isWhitespace).reverse

/-- Python `str.strip()`. -/
def pyStrip (s : String) : String :=
  String.mk (pyStripList s.data)

/-- Python `str.startswith(pre)`. -/
def pyStartswith (s pre : String) : Bool :=
  pre.data.isPrefixOf s.data

/-- Python slicing `s[7:-3]`: the characters from index 7 up to (but not
including) index `len - 3`. -/
def pySlice7m3 (s : String) : String :=
  String.mk ((s.data.take (s.data.length - 3)).drop 7)

/-! ### Response normalisation (main.py lines 130-133 and 184-187) -/

/-- The fence-stripping applied to an Anthropic response text:
`json_text = text.strip()`; if it starts with three backticks followed by
`json`, replace it by `json_text[7:-3].strip()`. -/
def stripAnthropicFence (text : String) : String :=
  let json_text := pyStrip text
  if pyStartswith json_text "```json" then pyStrip (pySlice7m3 json_text)
  else json_text

/-- The text handed to `json.loads` for each implemented provider: the raw
response text for google and openai (native JSON mode), the fence-stripped
text for anthropic. -/
def responseText (p : Provider) (text : String) : String :=
  match p with
  | .anthropic => stripAnthropicFence text
  | _ => text

/-- The full normalisation step for the fenced-text provider: strip the fence
and parse the remainder with `json.loads`. -/
def normalizeAnthropic (jsonLoads : String → Except String Json)
    (text : String) : Except String Json :=
  jsonLoads (stripAnthropicFence text)

/-! ### Prompt builders (src/backend/prompts.py)

The f-string templates are embedded as explicit concatenations of their
literal segments with the interpolated concept fields, exactly as the
f-strings evaluate.  Literal braces and apostrophes of the templates are
written with character escapes. -/

/-- A role-tagged chat message (the dicts of the message lists). -/
structure ChatMessage where
  role : String
  content : String
deriving DecidableEq

/-- Literal segment of the Gemini template before the genre field. -/
def geminiPre : String :=
  "You are a world-class Story Architect. Your task is to generate a complete, coherent, and compelling story outline based on the user\x27s initial concepts.\n\n**Instructions:**\n1.  **Analyze the Core Concepts:** Carefully consider the provided Genre, Theme, Core Idea, and Style.\n2.  **Structure the Outline:** Create a three-act structure (Act I, Act II, Act III).\n3.  **Output Format:** You MUST return the outline as a valid JSON object. Do not include any explanatory text before or after the JSON. The JSON object should have a single root key \"outline\" which contains the three acts. Each act should be an object with a \"title\" and a list of \"chapters\". Each chapter should be an object with a \"title\" and a \"summary\".\n\n**Core Concepts:**\n*   **Genre:** "

/-- Gemini template segment between genre and theme. -/
def geminiMid1 : String := "\n*   **Theme:** "

/-- Gemini template segment between theme and core idea. -/
def geminiMid2 : String := "\n*   **Core Idea:** "

/-- Gemini template segment between core idea and style. -/
def geminiMid3 : String := "\n*   **Style:** "

/-- Literal segment of the Gemini template after the style field. -/
def geminiPost : String :=
  "\n\n**Example JSON Output Structure:**\n\x7b\n  \"outline\": \x7b\n    \"act_1\": \x7b...\x7d,\n    \"act_2\": \x7b...\x7d,\n    \"act_3\": \x7b...\x7d\n  \x7d\n\x7d\n\nNow, generate the JSON for the story described above.\n"

/-- `create_gemini_prompt`: a single instruction string. -/
def create_gemini_prompt (concept : StoryConcept) : String :=
  geminiPre ++ concept.genre ++ geminiMid1 ++ concept.theme ++ geminiMid2 ++
    concept.core_idea ++ geminiMid3 ++ concept.style ++ geminiPost

/-- The system message of the OpenAI prompt. -/
def openaiSystemMessage : String :=
  "You are a world-class Story Architect. Your task is to generate a complete, coherent, and compelling story outline based on the user\x27s initial concepts. You MUST return the outline as a valid JSON object. Do not include any explanatory text before or after the JSON. The JSON object should have a single root key \"outline\" which contains the three acts. Each act should be an object with a \"title\" and a list of \"chapters\". Each chapter should be an object with a \"title\" and a \"summary\" in a three-act structure."

/-- User-message segment before the genre field (shared by the OpenAI and
Anthropic builders, whose user messages are identical). -/
def userMsgPre : String :=
  "Please generate a story outline with the following concepts:\n- **Genre:** "

/-- User-message segment between genre and theme. -/
def userMsgMid1 : String := "\n- **Theme:** "

/-- User-message segment between theme and core idea. -/
def userMsgMid2 : String := "\n- **Core Idea:** "

/-- User-message segment between core idea and style. -/
def userMsgMid3 : String := "\n- **Style:** "

/-- The user message built by `create_openai_prompt` and
`create_anthropic_prompt`. -/
def conceptUserMessage (concept : StoryConcept) : String :=
  userMsgPre ++ concept.genre ++ userMsgMid1 ++ concept.theme ++ userMsgMid2 ++
    concept.core_idea ++ userMsgMid3 ++ concept.style

/-- `create_openai_prompt`: a system message followed by a user message. -/
def create_openai_prompt (concept : StoryConcept) : List ChatMessage :=
  [⟨"system", openaiSystemMessage⟩, ⟨"user", conceptUserMessage concept⟩]

/-- The system prompt of the Anthropic builder. -/
def anthropicSystemMessage : String :=
  "You are a world-class Story Architect. Your task is to generate a complete, coherent, and compelling story outline based on the user\x27s initial concepts. Please return the outline as a valid JSON object inside a single top-level `json` code block. Do not include any other text. The JSON object should have a single root key \"outline\" which contains the three acts. Each act should be an object with a \"title\" and a list of \"chapters\". Each chapter should be an object with a \"title\" and a \"summary\" in a three-act structure."

/-- `create_anthropic_prompt`: a (messages, system prompt) pair — Anthropic
separates the system prompt from the message list. -/
def create_anthropic_prompt (concept : StoryConcept) : List ChatMessage × String :=
  ([⟨"user", conceptUserMessage concept⟩], anthropicSystemMessage)

/-- Modelled from the spec: `create_chapter_analysis_prompt` is imported and
called by main.py but its definition is missing from src/backend/prompts.py.
Spec 4.1 says the analysis builder embeds a fixed instructional template
demanding a JSON object with "summary" and "characters" keys around the
chapter text.  No theorem below depends on its exact text. -/
def create_chapter_analysis_prompt (chapter_text : String) : String :=
  "Analyze the following chapter. You MUST return a valid JSON object with a \"summary\" key (a concise summary) and a \"characters\" key (a list of character names). Do not include any other text.\n\nChapter:\n" ++ chapter_text

/-! ### Flat-file project store (main.py lines 27-28, 79-93)

One JSON file per project in a flat directory.  A file is a
(filename, parsed content) pair; `json.dumps`/`json.load` of the standard
library are modelled as the identity on the parsed `Json` tree. -/

/-- The store: the files of the `../data` directory. -/
abbrev Store := List (String × Json)

/-- `get_project_path`: the file of a project id. -/
def get_project_path (project_id : String) : String :=
  project_id ++ ".json"

/-- Look a file up by name. -/
def readFile (store : Store) (name : String) : Option Json :=
  (store.find? (fun kv => kv.1 == name)).map Prod.snd

/-- Write a file, overwriting any existing file of the same name.  Directory
iteration order is unspecified by the OS, so the model is free to keep the
overwritten file at the end of the list. -/
def writeFile (store : Store) (name : String) (content : Json) : Store :=
  store.filter (fun kv => kv.1 != name) ++ [(name, content)]

/-- `os.remove`: drop the file. -/
def removeFile (store : Store) (name : String) : Store :=
  store.filter (fun kv => kv.1 != name)

/-! ### Project (de)serialisation (pydantic `model_dump_json` / `Project(**data)`) -/

/-- Serialisation of the concept sub-model. -/
def conceptToJson (c : ProjectConcept) : Json :=
  .obj [("genre", .str c.genre), ("theme", .str c.theme),
        ("core_idea", .str c.core_idea), ("style", .str c.style)]

/-- `project.model_dump_json()`: the serialised form of a `Project`, one JSON
object with exactly the six model fields (and in particular no credential
field — `Project` has no `api_key`). -/
def projectToJson (p : Project) : Json :=
  .obj [("id", .str p.id), ("title", .str p.title),
        ("created_at", .num p.created_at),
        ("provider", .str (providerValue p.provider)),
        ("concept", conceptToJson p.concept),
        ("outline", .obj p.outline)]

/-- The keys of a serialised JSON object. -/
def jsonKeys : Json → List String
  | .obj fields => fields.map Prod.fst
  | _ => []

/-- Key lookup in a JSON object field list. -/
def jlookup (fields : List (String × Json)) (k : String) : Option Json :=
  (fields.find? (fun kv => kv.1 == k)).map Prod.snd

/-- pydantic string field validation. -/
def asStr : Json → Option String
  | .str s => some s
  | _ => none

/-- pydantic datetime field validation (timestamps modelled as integers). -/
def asInt : Json → Option Int
  | .num n => some n
  | _ => none

/-- pydantic `dict` field validation. -/
def asObj : Json → Option (List (String × Json))
  | .obj fields => some fields
  | _ => none

/-- `ProjectConcept(**...)` validation of the nested concept object. -/
def conceptOfJson (j : Json) : Option ProjectConcept :=
  match j with
  | .obj fields =>
    match jlookup fields "genre" >>= asStr, jlookup fields "theme" >>= asStr,
          jlookup fields "core_idea" >>= asStr, jlookup fields "style" >>= asStr with
    | some g, some t, some ci, some st => some ⟨g, t, ci, st⟩
    | _, _, _, _ => none
  | _ => none

/-- `Project(**data)`: validate the parsed file content back into a
`Project`.  Extra keys are ignored (pydantic default); a missing or
ill-typed field is a validation error (`none`). -/
def projectOfJson (j : Json) : Option Project :=
  match j with
  | .obj fields =>
    match jlookup fields "id" >>= asStr, jlookup fields "title" >>= asStr,
          jlookup fields "created_at" >>= asInt,
          (jlookup fields "provider" >>= asStr) >>= providerOfValue,
          jlookup fields "concept" >>= conceptOfJson,
          jlookup fields "outline" >>= asObj with
    | some i, some t, some ca, some pr, some co, some ol =>
        some ⟨i, t, ca, pr, co, ol⟩
    | _, _, _, _, _, _ => none
  | _ => none

/-- `ProjectMetadata(**data)` on a parsed file: a non-object content raises
`TypeError` (which the listing loop catches and skips, `none` outcome);
an object must carry the three metadata fields (extra keys ignored),
otherwise pydantic raises a validation error, which the listing loop does
NOT catch (`Except.error`). -/
def metadataStep (j : Json) : Except String (Option ProjectMetadata) :=
  match j with
  | .obj fields =>
    match jlookup fields "id" >>= asStr, jlookup fields "title" >>= asStr,
          jlookup fields "created_at" >>= asInt with
    | some i, some t, some ca => .ok (some ⟨i, t, ca⟩)
    | _, _, _ => .error "validation error for ProjectMetadata"
  | _ => .ok none

/-- `save_project`: write the serialised project to its file. -/
def save_project (store : Store) (project : Project) : Store :=
  writeFile store (get_project_path project.id) (projectToJson project)

/-- `load_project`: 404 if the file does not exist, otherwise re-validate the
parsed file content.  (A validation failure on an existing file escapes the
endpoint as an unhandled error; no theorem below exercises that branch.) -/
def load_project (store : Store) (project_id : String) : Except HTTPError Project :=
  match readFile store (get_project_path project_id) with
  | none => .error ⟨404, "Project not found"⟩
  | some j =>
    match projectOfJson j with
    | some p => .ok p
    | none => .error ⟨500, "validation error for Project"⟩

/-! ### The endpoints of main.py -/

/-- The outcome of the one vendor SDK call a request may make: the response
text, or the message of the exception the SDK raised. -/
inductive VendorResult where
  | ok (text : String)
  | err (msg : String)

/-- Whether a provider has an implemented dispatch branch. -/
def implementedProvider : Provider → Bool
  | .google | .openai | .anthropic => true
  | _ => false

/-- Placeholder for the pydantic validation error text raised when a parsed
outline is not a JSON object (`Project.outline : dict`).  The text is
generated by the pydantic library (an external collaborator); no theorem
depends on it. -/
def outlineValidationError : String :=
  "1 validation error for Project: outline must be a dict"

/-- The detail text of the blanket handler
`except Exception as e: raise HTTPException(500, f"An error occurred with provider \x7b...\x7d: \x7bstr(e)\x7d")`. -/
def providerErrorDetail (p : Provider) (msg : String) : String :=
  "An error occurred with provider " ++ providerFormat p ++ ": " ++ msg

/-- The detail text of the `except json.JSONDecodeError` handler. -/
def parseFailureDetail (msg : String) : String :=
  "Failed to parse JSON from model response: " ++ msg

/-- `str(e)` of the `HTTPException(400, f"Provider ... not yet supported.")`
raised for an unimplemented provider (starlette renders it as
`"\x7bstatus\x7d: \x7bdetail\x7d"`). -/
def unsupportedProviderStr (p : Provider) : String :=
  "400: Provider \x27" ++ providerFormat p ++ "\x27 not yet supported."

/-- `str(e)` of the analogous exception of the analysis endpoint. -/
def unsupportedAnalysisStr (p : Provider) : String :=
  "400: Provider \x27" ++ providerFormat p ++ "\x27 not yet supported for analysis."

/-- What one `POST /api/projects` request did: the HTTP result, the store
left behind, and whether a remote vendor call was attempted. -/
structure CreateOutcome where
  result : Except HTTPError Project
  store : Store
  remoteCalled : Bool

/-- `create_project` (main.py lines 96-153).  `jsonLoads` models
`json.loads`; `vendor` models the one SDK call the request may make;
`newId` is the generated `story_<uuid4>` identifier and `now` the
`datetime.utcnow()` timestamp.

Control flow of the source, reproduced faithfully:
* an unimplemented provider raises `HTTPException(400, ...)` INSIDE the
  `try` block, so the blanket `except Exception` catches it and re-raises
  it wrapped as a 500 — and no vendor call is attempted;
* a vendor SDK exception is caught by the blanket handler (500, wrapped
  with the provider identity);
* a `json.JSONDecodeError` from the response text is re-raised as the
  distinct 500 parse-failure error, and nothing is persisted;
* a parsed outline that is not a JSON object fails `Project` validation
  (`outline : dict`), which the blanket handler turns into the generic 500;
* only on full success is the new project saved and returned. -/
def create_project (jsonLoads : String → Except String Json)
    (vendor : VendorResult) (project_data : ProjectCreate)
    (newId : String) (now : Int) (store : Store) : CreateOutcome :=
  if implementedProvider project_data.provider then
    match vendor with
    | .err msg =>
        { result := .error ⟨500, providerErrorDetail project_data.provider msg⟩,
          store := store, remoteCalled := true }
    | .ok text =>
      match jsonLoads (responseText project_data.provider text) with
      | .error msg =>
          { result := .error ⟨500, parseFailureDetail msg⟩,
            store := store, remoteCalled := true }
      | .ok outline_json =>
        match outline_json with
        | .obj outline =>
          let new_project : Project :=
            { id := "story_" ++ newId, title := project_data.title,
              created_at := now, provider := project_data.provider,
              concept := project_data.concept, outline := outline }
          { result := .ok new_project,
            store := save_project store new_project, remoteCalled := true }
        | _ =>
          { result := .error ⟨500, providerErrorDetail project_data.provider
                                     outlineValidationError⟩,
            store := store, remoteCalled := true }
  else
    { result := .error ⟨500, providerErrorDetail project_data.provider
                               (unsupportedProviderStr project_data.provider)⟩,
      store := store, remoteCalled := false }

/-- Placeholder for the pydantic validation error text raised by
`ChapterAnalysisResponse(**analysis_json)` on a schema mismatch (or the
`TypeError` when the parsed value is not an object).  Library-generated
text; no theorem depends on it. -/
def analysisValidationError : String :=
  "validation error for ChapterAnalysisResponse"

/-- `ChapterAnalysisResponse(**analysis_json)`: the parsed value must be an
object with a string `summary` and a list-of-strings `characters`
(extra keys are ignored). -/
def chapterAnalysisOfJson (j : Json) : Option ChapterAnalysisResponse :=
  match j with
  | .obj fields =>
    match jlookup fields "summary" >>= asStr, jlookup fields "characters" with
    | some s, some (.arr elems) =>
      match elems.mapM asStr with
      | some chars => some ⟨s, chars⟩
      | none => none
    | _, _ => none
  | _ => none

/-- `analyze_chapter` (main.py lines 155-197).  Same dispatch, normalisation
and exception translation as `create_project`, but the canonical JSON is
validated against the `\x7bsummary, characters\x7d` response model instead of
being persisted.  A schema mismatch raises a pydantic validation error,
which only the blanket `except Exception` handler catches. -/
def analyze_chapter (jsonLoads : String → Except String Json)
    (vendor : VendorResult) (request : ChapterAnalysisRequest) :
    Except HTTPError ChapterAnalysisResponse :=
  if implementedProvider request.provider then
    match vendor with
    | .err msg => .error ⟨500, providerErrorDetail request.provider msg⟩
    | .ok text =>
      match jsonLoads (responseText request.provider text) with
      | .error msg => .error ⟨500, parseFailureDetail msg⟩
      | .ok analysis_json =>
        match chapterAnalysisOfJson analysis_json with
        | some resp => .ok resp
        | none => .error ⟨500, providerErrorDetail request.provider
                                analysisValidationError⟩
  else
    .error ⟨500, providerErrorDetail request.provider
                   (unsupportedAnalysisStr request.provider)⟩

/-- The descending-timestamp order used by the listing endpoint
(`projects.sort(key=lambda p: p.created_at, reverse=True)`). -/
def newerFirst (a b : ProjectMetadata) : Prop :=
  b.created_at ≤ a.created_at

instance : DecidableRel newerFirst := fun a b =>
  inferInstanceAs (Decidable (b.created_at ≤ a.created_at))

instance : IsTotal ProjectMetadata newerFirst :=
  ⟨fun a b => (le_total b.created_at a.created_at).imp id id⟩

instance : IsTrans ProjectMetadata newerFirst :=
  ⟨fun _ _ _ hab hbc => le_trans hbc hab⟩

/-- The metadata-collection loop of `list_projects`: each file's parsed
content goes through `ProjectMetadata(**data)`; a `TypeError` (non-object
content) is caught and the file skipped; a pydantic validation error is not
caught and aborts the whole request. -/
def collectMetadata : Store → Except String (List ProjectMetadata)
  | [] => .ok []
  | kv :: rest =>
    match metadataStep kv.2 with
    | .error e => .error e
    | .ok none => collectMetadata rest
    | .ok (some m) =>
      match collectMetadata rest with
      | .error e => .error e
      | .ok ms => .ok (m :: ms)

/-- `list_projects` (main.py lines 199-210): collect the metadata of every
stored file, then sort newest-first. -/
def list_projects (store : Store) : Except String (List ProjectMetadata) :=
  match collectMetadata store with
  | .error e => .error e
  | .ok ms => .ok (List.insertionSort newerFirst ms)

/-- `delete_project` (main.py lines 216-222): 404 when the file does not
exist (store untouched), otherwise remove the file. -/
def delete_project (store : Store) (project_id : String) :
    Except HTTPError Unit × Store :=
  if (readFile store (get_project_path project_id)).isSome then
    (.ok (), removeFile store (get_project_path project_id))
  else
    (.error ⟨404, "Project not found"⟩, store)

/-! ### Auxiliary definitions used by the verification -/

/-- The characters of the opening fence line of a conforming Anthropic
response, `"```json\n"`. -/
def fenceOpenChars : List Char := ['`','`','`','j','s','o','n','\n']

/-- `needle` occurs verbatim as a contiguous substring of `hay`. -/
def occursIn (needle hay : String) : Prop :=
  needle.data <:+: hay.data

/-- The metadata projection of a project, as listed by `list_projects`. -/
def projMeta (p : Project) : ProjectMetadata :=
  ⟨p.id, p.title, p.created_at⟩

/-- The file a saved project occupies in the store. -/
def projFile (p : Project) : String × Json :=
  (get_project_path p.id, projectToJson p)

/-- A concrete story concept used by witness instantiations. -/
def demoConcept : ProjectConcept :=
  ⟨"science fiction", "hope", "a generation ship", "lyrical"⟩

/-- Concrete project A (created at t = 1) of the listing scenario. -/
def demoProjA : Project :=
  ⟨"story_a", "Project A", 1, .google, demoConcept, []⟩

/-- Concrete project B (created at t = 2) of the listing scenario. -/
def demoProjB : Project :=
  ⟨"story_b", "Project B", 2, .google, demoConcept, []⟩

/-- A concrete `json.loads` model used by witness instantiations: it accepts
the empty JSON object text and rejects everything else. -/
def demoObjLoads : String → Except String Json := fun s =>
  if s = "\x7b\x7d" then .ok (.obj [])
  else .error "Expecting value: line 1 column 1 (char 0)"

/-- A concrete `json.loads` model for the analysis counterexample: one
non-JSON text and one valid-JSON-wrong-schema text. -/
def demoAnalysisLoads : String → Except String Json := fun s =>
  if s = "\x7b\"foo\": 1\x7d" then .ok (.obj [("foo", .num 1)])
  else .error "Expecting value: line 1 column 1 (char 0)"

/-! ## Helper lemmas -/

theorem string_append_assoc (a b c : String) : a ++ b ++ c = a ++ (b ++ c) :=
  String.ext (by simp [String.data_append])

theorem occursIn_of_append (needle pre post hay : String)
    (h : hay = pre ++ needle ++ post) : occursIn needle hay := by
  subst h
  exact ⟨pre.data, post.data, by simp [String.data_append]⟩

theorem dropWhile_ws_cons (c : Char) (l : List Char) (h : c.isWhitespace = false) :
    List.dropWhile Char.isWhitespace (c :: l) = c :: l := by
  simp [List.dropWhile_cons, h]

theorem pyStripList_of_ends (a c : Char) (mid : List Char)
    (ha : a.isWhitespace = false) (hc : c.isWhitespace = false) :
    pyStripList (a :: (mid ++ [c])) = a :: (mid ++ [c]) := by
  unfold pyStripList
  rw [dropWhile_ws_cons a _ ha]
  have h1 : (a :: (mid ++ [c])).reverse = c :: (mid.reverse ++ [a]) := by simp
  rw [h1, dropWhile_ws_cons c _ hc, ← h1, List.reverse_reverse]

theorem pyStripList_fence_wrap (bs : List Char) :
    pyStripList (fenceOpenChars ++ (bs ++ ['\n','`','`','`']))
      = fenceOpenChars ++ (bs ++ ['\n','`','`','`']) := by
  have h1 : fenceOpenChars ++ (bs ++ ['\n','`','`','`'])
      = '`' :: (['`','`','j','s','o','n','\n'] ++ (bs ++ ['\n','`','`','`'])) := rfl
  unfold pyStripList
  rw [h1, dropWhile_ws_cons _ _ (by decide), ← h1]
  have h2 : (fenceOpenChars ++ (bs ++ ['\n','`','`','`'])).reverse
      = '`' :: (['`','`','\n'] ++ (bs.reverse ++ fenceOpenChars.reverse)) := by
    simp [fenceOpenChars]
  rw [h2, dropWhile_ws_cons _ _ (by decide), ← h2, List.reverse_reverse]

theorem pyStartswith_fence (l : List Char) :
    List.isPrefixOf "```json".data (fenceOpenChars ++ l) = true := rfl

theorem pySlice_fence_wrap (bs : List Char) :
    ((fenceOpenChars ++ (bs ++ ['\n','`','`','`'])).take
        ((fenceOpenChars ++ (bs ++ ['\n','`','`','`'])).length - 3)).drop 7
      = '\n' :: (bs ++ ['\n']) := by
  have hsplit : fenceOpenChars ++ (bs ++ ['\n','`','`','`'])
      = (fenceOpenChars ++ (bs ++ ['\n'])) ++ ['`','`','`'] := by
    simp [fenceOpenChars]
  rw [hsplit]
  have hl : ((fenceOpenChars ++ (bs ++ ['\n'])) ++ ['`','`','`']).length - 3
      = (fenceOpenChars ++ (bs ++ ['\n'])).length := by
    simp [List.length_append]
    omega
  rw [hl, List.take_left]
  rfl

theorem pyStripList_nl_wrap (a c : Char) (mid : List Char)
    (ha : a.isWhitespace = false) (hc : c.isWhitespace = false) :
    pyStripList ('\n' :: ((a :: (mid ++ [c])) ++ ['\n'])) = a :: (mid ++ [c]) := by
  unfold pyStripList
  have h0 : List.dropWhile Char.isWhitespace ('\n' :: ((a :: (mid ++ [c])) ++ ['\n']))
      = a :: ((mid ++ [c]) ++ ['\n']) := by
    rw [List.dropWhile_cons, if_pos (by decide), List.cons_append,
      dropWhile_ws_cons _ _ ha]
  rw [h0]
  have h1 : (a :: ((mid ++ [c]) ++ ['\n'])).reverse
      = '\n' :: (c :: (mid.reverse ++ [a])) := by simp
  rw [h1, List.dropWhile_cons, if_pos (by decide), dropWhile_ws_cons _ _ hc]
  simp

theorem data_fence_wrap (b : String) :
    ("```json\n" ++ b ++ "\n```").data
      = fenceOpenChars ++ (b.data ++ ['\n','`','`','`']) := by
  rw [String.data_append, String.data_append]
  simp [fenceOpenChars]

theorem stripAnthropicFence_wrap (b : String) (a c : Char) (mid : List Char)
    (hb : b.data = a :: (mid ++ [c]))
    (ha : a.isWhitespace = false) (hc : c.isWhitespace = false) :
    stripAnthropicFence ("```json\n" ++ b ++ "\n```") = b := by
  unfold stripAnthropicFence pyStrip pyStartswith pySlice7m3
  rw [data_fence_wrap, pyStripList_fence_wrap]
  rw [if_pos (pyStartswith_fence _)]
  rw [pySlice_fence_wrap, hb, pyStripList_nl_wrap a c mid ha hc, ← hb]

theorem stripAnthropicFence_unfenced (t : String)
    (hstrip : pyStripList t.data = t.data)
    (hpre : List.isPrefixOf "```json".data t.data = false) :
    stripAnthropicFence t = t := by
  unfold stripAnthropicFence pyStrip pyStartswith
  rw [hstrip]
  rw [if_neg (by rw [hpre]; exact Bool.false_ne_true)]

theorem find?_filter_ne_none (st : Store) (n : String) :
    List.find? (fun kv => kv.1 == n) (st.filter (fun kv => kv.1 != n)) = none := by
  rw [List.find?_eq_none]
  intro x hx
  rw [List.mem_filter] at hx
  simpa using hx.2

theorem readFile_writeFile_self (st : Store) (n : String) (j : Json) :
    readFile (writeFile st n j) n = some j := by
  unfold readFile writeFile
  rw [List.find?_append, find?_filter_ne_none]
  simp [List.find?]

theorem readFile_removeFile_self (st : Store) (n : String) :
    readFile (removeFile st n) n = none := by
  unfold readFile removeFile
  rw [find?_filter_ne_none]
  rfl

theorem projectOfJson_projectToJson (p : Project) :
    projectOfJson (projectToJson p) = some p := by
  obtain ⟨i, t, ca, pr, co, ol⟩ := p
  obtain ⟨g, th, ci, st⟩ := co
  cases pr <;> rfl

theorem metadataStep_projectToJson (p : Project) :
    metadataStep (projectToJson p) = .ok (some (projMeta p)) := by
  obtain ⟨i, t, ca, pr, co, ol⟩ := p
  rfl

theorem collectMetadata_projFiles (ps : List Project) :
    collectMetadata (ps.map projFile) = .ok (ps.map projMeta) := by
  induction ps with
  | nil => rfl
  | cons p rest ih =>
    simp only [List.map_cons, collectMetadata, projFile,
      metadataStep_projectToJson, ih]

theorem parseFailureDetail_ne_providerErrorDetail (p : Provider) (e m : String) :
    parseFailureDetail e ≠ providerErrorDetail p m := by
  intro h
  have hF : (parseFailureDetail e).data.head? = some 'F' := rfl
  have hA : (providerErrorDetail p m).data.head? = some 'A' := rfl
  rw [h, hA] at hF
  exact absurd hF (by decide)

/-! ## The claims -/

/-- C1: for every generation request whose provider is one of the
declared-but-unimplemented providers (zhipu, moonshot, baidu, alibaba),
`create_project` attempts no remote vendor call and persists nothing — but
it does NOT return the unsupported-provider 400: the `HTTPException(400)`
is raised inside the `try` block, the blanket `except Exception` catches
it, and the client receives a 500 whose detail wraps the original 400
message.  This refutes the claimed 400 status (the code slips on its own
explicit `status_code=400` intent); the no-remote-call half holds. -/
theorem create_project_unimplemented_provider_wrapped_500
    (jsonLoads : String → Except String Json) (vendor : VendorResult)
    (title : String) (concept : ProjectConcept) (key newId : String)
    (now : Int) (store : Store) :
    ((create_project jsonLoads vendor ⟨title, concept, .zhipu, key⟩ newId now store).remoteCalled = false ∧
     (create_project jsonLoads vendor ⟨title, concept, .zhipu, key⟩ newId now store).store = store ∧
     (create_project jsonLoads vendor ⟨title, concept, .zhipu, key⟩ newId now store).result
       = .error ⟨500, providerErrorDetail .zhipu (unsupportedProviderStr .zhipu)⟩) ∧
    ((create_project jsonLoads vendor ⟨title, concept, .moonshot, key⟩ newId now store).remoteCalled = false ∧
     (create_project jsonLoads vendor ⟨title, concept, .moonshot, key⟩ newId now store).store = store ∧
     (create_project jsonLoads vendor ⟨title, concept, .moonshot, key⟩ newId now store).result
       = .error ⟨500, providerErrorDetail .moonshot (unsupportedProviderStr .moonshot)⟩) ∧
    ((create_project jsonLoads vendor ⟨title, concept, .baidu, key⟩ newId now store).remoteCalled = false ∧
     (create_project jsonLoads vendor ⟨title, concept, .baidu, key⟩ newId now store).store = store ∧
     (create_project jsonLoads vendor ⟨title, concept, .baidu, key⟩ newId now store).result
       = .error ⟨500, providerErrorDetail .baidu (unsupportedProviderStr .baidu)⟩) ∧
    ((create_project jsonLoads vendor ⟨title, concept, .alibaba, key⟩ newId now store).remoteCalled = false ∧
     (create_project jsonLoads vendor ⟨title, concept, .alibaba, key⟩ newId now store).store = store ∧
     (create_project jsonLoads vendor ⟨title, concept, .alibaba, key⟩ newId now store).result
       = .error ⟨500, providerErrorDetail .alibaba (unsupportedProviderStr .alibaba)⟩) :=
  ⟨⟨rfl, rfl, rfl⟩, ⟨rfl, rfl, rfl⟩, ⟨rfl, rfl, rfl⟩, ⟨rfl, rfl, rfl⟩⟩

/-- C2 counterexample: in `analyze_chapter`, a non-JSON response and a
valid-JSON-but-wrong-schema response are NOT surfaced as the same
malformed-model-output error kind.  Both are HTTP 500, but the non-JSON
case carries the parse-failure detail while the wrong-schema case escapes
through the blanket handler with the generic provider-error detail, and
the two details differ. -/
theorem analyze_chapter_schema_mismatch_distinct_kind_counterexample :
    analyze_chapter demoAnalysisLoads (.ok "not json") ⟨"chapter text", .google, "key"⟩
      = .error ⟨500, parseFailureDetail "Expecting value: line 1 column 1 (char 0)"⟩ ∧
    analyze_chapter demoAnalysisLoads (.ok "\x7b\"foo\": 1\x7d") ⟨"chapter text", .google, "key"⟩
      = .error ⟨500, providerErrorDetail .google analysisValidationError⟩ ∧
    providerErrorDetail .google analysisValidationError
      ≠ parseFailureDetail "Expecting value: line 1 column 1 (char 0)" :=
  ⟨rfl, rfl, by decide⟩

/-- C2 (amended): for every supported provider, a response that fails JSON
parsing is surfaced as the 500 parse-failure (malformed-model-output)
error, while a response that parses but mismatches the
`\x7bsummary, characters\x7d` schema is surfaced as the 500 generic
provider-error — and these two error kinds always have different detail
texts. -/
theorem analyze_chapter_error_kinds (jsonLoads : String → Except String Json)
    (request : ChapterAnalysisRequest) (text : String)
    (himp : implementedProvider request.provider = true) :
    (∀ e, jsonLoads (responseText request.provider text) = .error e →
       analyze_chapter jsonLoads (.ok text) request
         = .error ⟨500, parseFailureDetail e⟩) ∧
    (∀ v, jsonLoads (responseText request.provider text) = .ok v →
       chapterAnalysisOfJson v = none →
       analyze_chapter jsonLoads (.ok text) request
         = .error ⟨500, providerErrorDetail request.provider analysisValidationError⟩) ∧
    (∀ e, parseFailureDetail e
        ≠ providerErrorDetail request.provider analysisValidationError) := by
  refine ⟨?_, ?_, fun e => parseFailureDetail_ne_providerErrorDetail _ e _⟩
  · intro e he
    simp [analyze_chapter, himp, he]
  · intro v hv hschema
    simp [analyze_chapter, himp, hv, hschema]

/-- Witness for C2 (amended) at a concrete provider, parser and response. -/
theorem analyze_chapter_error_kinds_witness :
    analyze_chapter demoObjLoads (.ok "not json") ⟨"ch", .openai, "k"⟩
      = .error ⟨500, parseFailureDetail "Expecting value: line 1 column 1 (char 0)"⟩ :=
  (analyze_chapter_error_kinds demoObjLoads ⟨"ch", .openai, "k"⟩ "not json" rfl).1
    "Expecting value: line 1 column 1 (char 0)" rfl

/-- C3: whenever the vendor response text of a supported provider fails to
parse as JSON, `create_project` returns the distinct malformed-model-output
error carrying the underlying parse error text (the 500 with the
`Failed to parse JSON from model response` detail), no default outline is
substituted, and the store is left exactly as it was — no project file,
partial or otherwise, is persisted. -/
theorem create_project_parse_failure_distinct_error_not_persisted
    (jsonLoads : String → Except String Json)
    (pd : ProjectCreate) (text : String) (newId : String) (now : Int) (store : Store)
    (himp : implementedProvider pd.provider = true) :
    ∀ e, jsonLoads (responseText pd.provider text) = .error e →
      (create_project jsonLoads (.ok text) pd newId now store).result
          = .error ⟨500, parseFailureDetail e⟩ ∧
      (create_project jsonLoads (.ok text) pd newId now store).store = store := by
  intro e he
  constructor
  · simp [create_project, himp, he]
  · simp [create_project, himp, he]

/-- Witness for C3 at a concrete request whose response text is rejected by
the parser. -/
theorem create_project_parse_failure_witness :
    (create_project demoObjLoads (.ok "oops") ⟨"T", demoConcept, .google, "k"⟩ "id0" 0 []).result
        = .error ⟨500, parseFailureDetail "Expecting value: line 1 column 1 (char 0)"⟩ ∧
    (create_project demoObjLoads (.ok "oops") ⟨"T", demoConcept, .google, "k"⟩ "id0" 0 []).store = [] :=
  create_project_parse_failure_distinct_error_not_persisted demoObjLoads
    ⟨"T", demoConcept, .google, "k"⟩ "oops" "id0" 0 [] rfl
    "Expecting value: line 1 column 1 (char 0)" rfl

/-- C4: for the fenced-text provider (anthropic), a response body of exactly
three-backticks-json, newline, a JSON object text `b`, newline, closing
fence normalises to the parse of `b`; and the same body without any fences
also normalises successfully to the same parsed object. -/
theorem normalize_anthropic_fenced_and_unfenced
    (jsonLoads : String → Except String Json) (b : String) (v : Json)
    (bmid : List Char)
    (hb : b.data = '\x7b' :: (bmid ++ ['\x7d']))
    (hparse : jsonLoads b = .ok v) :
    normalizeAnthropic jsonLoads ("```json\n" ++ b ++ "\n```") = .ok v ∧
    normalizeAnthropic jsonLoads b = .ok v := by
  constructor
  · unfold normalizeAnthropic
    rw [stripAnthropicFence_wrap b _ _ bmid hb (by decide) (by decide), hparse]
  · unfold normalizeAnthropic
    have hstrip : pyStripList b.data = b.data := by
      rw [hb]; exact pyStripList_of_ends _ _ _ (by decide) (by decide)
    have hpre : List.isPrefixOf "```json".data b.data = false := by
      rw [hb]; rfl
    rw [stripAnthropicFence_unfenced b hstrip hpre, hparse]

/-- Witness for C4 at the concrete body of the empty JSON object. -/
theorem normalize_anthropic_fenced_and_unfenced_witness :
    normalizeAnthropic demoObjLoads "```json\n\x7b\x7d\n```" = .ok (.obj []) ∧
    normalizeAnthropic demoObjLoads "\x7b\x7d" = .ok (.obj []) :=
  normalize_anthropic_fenced_and_unfenced demoObjLoads "\x7b\x7d" (.obj []) [] rfl rfl

/-- C5: for a response text in the expected fence convention, normalisation
strips exactly the opening fence marker line and the trailing fence marker
and nothing else of the content; a text not starting with the fence marker
is passed through to the parser unchanged; and a text starting with the
fence marker but lacking a closing fence is incorrectly truncated (the
fixed `[7:-3]` slice chops the last three characters of the content, shown
at a concrete input). -/
theorem anthropic_fence_fixed_offset_stripping
    (b : String) (a c : Char) (bmid : List Char)
    (hb : b.data = a :: (bmid ++ [c]))
    (ha : a.isWhitespace = false) (hc : c.isWhitespace = false) :
    stripAnthropicFence ("```json\n" ++ b ++ "\n```") = b ∧
    (∀ t : String, pyStripList t.data = t.data →
       List.isPrefixOf "```json".data t.data = false →
       stripAnthropicFence t = t) ∧
    stripAnthropicFence "```json\n\x7b\"a\": 1\x7d" = "\x7b\"a\":" :=
  ⟨stripAnthropicFence_wrap b a c bmid hb ha hc,
   fun t h1 h2 => stripAnthropicFence_unfenced t h1 h2, rfl⟩

/-- Witness for C5 at a concrete fenced JSON object body. -/
theorem anthropic_fence_fixed_offset_stripping_witness :
    stripAnthropicFence "```json\n\x7b\"x\": 2\x7d\n```" = "\x7b\"x\": 2\x7d" :=
  (anthropic_fence_fixed_offset_stripping "\x7b\"x\": 2\x7d" '\x7b' '\x7d'
    ['"', 'x', '"', ':', ' ', '2'] rfl (by decide) (by decide)).1

/-- C6: each of the three outline prompt builders is deterministic (equal
concepts give equal request values, of the provider-specific shape: a
string for google, a message list for openai, a (messages, system) pair
for anthropic), and the built text embeds all four concept field values
verbatim as substrings (for openai and anthropic, in the user message). -/
theorem prompt_builders_deterministic_verbatim (c c' : StoryConcept) (h : c = c') :
    (create_gemini_prompt c = create_gemini_prompt c' ∧
     create_openai_prompt c = create_openai_prompt c' ∧
     create_anthropic_prompt c = create_anthropic_prompt c') ∧
    (occursIn c.genre (create_gemini_prompt c) ∧
     occursIn c.theme (create_gemini_prompt c) ∧
     occursIn c.core_idea (create_gemini_prompt c) ∧
     occursIn c.style (create_gemini_prompt c)) ∧
    (∃ m ∈ create_openai_prompt c,
      occursIn c.genre m.content ∧ occursIn c.theme m.content ∧
      occursIn c.core_idea m.content ∧ occursIn c.style m.content) ∧
    (∃ m ∈ (create_anthropic_prompt c).1,
      occursIn c.genre m.content ∧ occursIn c.theme m.content ∧
      occursIn c.core_idea m.content ∧ occursIn c.style m.content) := by
  subst h
  refine ⟨⟨rfl, rfl, rfl⟩, ⟨?_, ?_, ?_, ?_⟩,
    ⟨⟨"user", conceptUserMessage c⟩, by simp [create_openai_prompt], ?_, ?_, ?_, ?_⟩,
    ⟨⟨"user", conceptUserMessage c⟩, by simp [create_anthropic_prompt], ?_, ?_, ?_, ?_⟩⟩
  · exact occursIn_of_append c.genre geminiPre
      (geminiMid1 ++ c.theme ++ geminiMid2 ++ c.core_idea ++ geminiMid3 ++ c.style ++ geminiPost)
      _ (by simp [create_gemini_prompt, string_append_assoc])
  · exact occursIn_of_append c.theme (geminiPre ++ c.genre ++ geminiMid1)
      (geminiMid2 ++ c.core_idea ++ geminiMid3 ++ c.style ++ geminiPost)
      _ (by simp [create_gemini_prompt, string_append_assoc])
  · exact occursIn_of_append c.core_idea (geminiPre ++ c.genre ++ geminiMid1 ++ c.theme ++ geminiMid2)
      (geminiMid3 ++ c.style ++ geminiPost)
      _ (by simp [create_gemini_prompt, string_append_assoc])
  · exact occursIn_of_append c.style
      (geminiPre ++ c.genre ++ geminiMid1 ++ c.theme ++ geminiMid2 ++ c.core_idea ++ geminiMid3)
      geminiPost _ (by simp [create_gemini_prompt, string_append_assoc])
  · exact occursIn_of_append c.genre userMsgPre
      (userMsgMid1 ++ c.theme ++ userMsgMid2 ++ c.core_idea ++ userMsgMid3 ++ c.style)
      _ (by simp [conceptUserMessage, string_append_assoc])
  · exact occursIn_of_append c.theme (userMsgPre ++ c.genre ++ userMsgMid1)
      (userMsgMid2 ++ c.core_idea ++ userMsgMid3 ++ c.style)
      _ (by simp [conceptUserMessage, string_append_assoc])
  · exact occursIn_of_append c.core_idea (userMsgPre ++ c.genre ++ userMsgMid1 ++ c.theme ++ userMsgMid2)
      (userMsgMid3 ++ c.style)
      _ (by simp [conceptUserMessage, string_append_assoc])
  · exact occursIn_of_append c.style
      (userMsgPre ++ c.genre ++ userMsgMid1 ++ c.theme ++ userMsgMid2 ++ c.core_idea ++ userMsgMid3)
      "" _ (by simp [conceptUserMessage, string_append_assoc])
  · exact occursIn_of_append c.genre userMsgPre
      (userMsgMid1 ++ c.theme ++ userMsgMid2 ++ c.core_idea ++ userMsgMid3 ++ c.style)
      _ (by simp [conceptUserMessage, string_append_assoc])
  · exact occursIn_of_append c.theme (userMsgPre ++ c.genre ++ userMsgMid1)
      (userMsgMid2 ++ c.core_idea ++ userMsgMid3 ++ c.style)
      _ (by simp [conceptUserMessage, string_append_assoc])
  · exact occursIn_of_append c.core_idea (userMsgPre ++ c.genre ++ userMsgMid1 ++ c.theme ++ userMsgMid2)
      (userMsgMid3 ++ c.style)
      _ (by simp [conceptUserMessage, string_append_assoc])
  · exact occursIn_of_append c.style
      (userMsgPre ++ c.genre ++ userMsgMid1 ++ c.theme ++ userMsgMid2 ++ c.core_idea ++ userMsgMid3)
      "" _ (by simp [conceptUserMessage, string_append_assoc])

/-- Witness for C6 at a concrete concept. -/
theorem prompt_builders_deterministic_verbatim_witness :
    occursIn "science fiction" (create_gemini_prompt demoConcept) :=
  ((prompt_builders_deterministic_verbatim demoConcept demoConcept rfl).2.1).1

/-- C7: saving any project and loading it back by its id returns a project
equal to the saved one in every field. -/
theorem save_project_load_project_roundtrip (store : Store) (p : Project) :
    load_project (save_project store p) p.id = .ok p := by
  unfold load_project save_project
  rw [readFile_writeFile_self]
  simp [projectOfJson_projectToJson]

/-- C8: for every set of stored projects, `list_projects` returns their
metadata projections sorted by `created_at` newest-first (a permutation of
the projections that is sorted under the newest-first order); in
particular, with project A created at t = 1 and project B at t = 2, the
listing is [B, A]. -/
theorem list_projects_sorted_newest_first (ps : List Project) :
    (list_projects (ps.map projFile)
        = .ok (List.insertionSort newerFirst (ps.map projMeta)) ∧
     List.Sorted newerFirst (List.insertionSort newerFirst (ps.map projMeta)) ∧
     List.Perm (List.insertionSort newerFirst (ps.map projMeta)) (ps.map projMeta)) ∧
    list_projects [projFile demoProjA, projFile demoProjB]
      = .ok [projMeta demoProjB, projMeta demoProjA] := by
  refine ⟨⟨?_, ?_, ?_⟩, ?_⟩
  · unfold list_projects
    rw [collectMetadata_projFiles]
  · exact List.sorted_insertionSort newerFirst _
  · exact List.perm_insertionSort newerFirst _
  · rfl

/-- C9: deleting a project id with no stored file returns not-found with the
store unchanged; deleting an existing id succeeds, and a subsequent fetch
of that id returns not-found. -/
theorem delete_project_semantics (store : Store) (project_id : String) :
    (readFile store (get_project_path project_id) = none →
       delete_project store project_id = (.error ⟨404, "Project not found"⟩, store)) ∧
    (∀ j, readFile store (get_project_path project_id) = some j →
       (delete_project store project_id).1 = .ok () ∧
       load_project (delete_project store project_id).2 project_id
         = .error ⟨404, "Project not found"⟩) := by
  constructor
  · intro h
    simp [delete_project, h]
  · intro j h
    constructor
    · simp [delete_project, h]
    · simp [delete_project, h, load_project, readFile_removeFile_self]

/-- Witness for C9: both branches at concrete stores. -/
theorem delete_project_semantics_witness :
    delete_project [] "p" = (.error ⟨404, "Project not found"⟩, []) ∧
    (delete_project [("p.json", Json.null)] "p").1 = .ok () ∧
    load_project (delete_project [("p.json", Json.null)] "p").2 "p"
      = .error ⟨404, "Project not found"⟩ :=
  ⟨(delete_project_semantics [] "p").1 rfl,
   ((delete_project_semantics [("p.json", Json.null)] "p").2 Json.null rfl).1,
   ((delete_project_semantics [("p.json", Json.null)] "p").2 Json.null rfl).2⟩

/-- C10: the caller-supplied api_key never reaches the persisted project
file: two `create_project` runs differing only in the api_key (identical
vendor response, generated id and timestamp) leave identical stores, and
the serialised project record has exactly the six model fields — no
credential field. -/
theorem api_key_absent_from_persisted_project
    (jsonLoads : String → Except String Json) (vendor : VendorResult)
    (title : String) (concept : ProjectConcept) (provider : Provider)
    (key1 key2 newId : String) (now : Int) (store : Store) :
    (create_project jsonLoads vendor ⟨title, concept, provider, key1⟩ newId now store).store
      = (create_project jsonLoads vendor ⟨title, concept, provider, key2⟩ newId now store).store ∧
    (∀ p : Project,
      jsonKeys (projectToJson p)
          = ["id", "title", "created_at", "provider", "concept", "outline"] ∧
      "api_key" ∉ jsonKeys (projectToJson p)) := by
  refine ⟨rfl, fun p => ⟨rfl, ?_⟩⟩
  intro hmem
  simp [jsonKeys, projectToJson] at hmem

end StoryArchitect
